import Mathlib

/-!
Verification of the Mosaic Protocol scoring and proof-binding pipeline.

The development shallowly embeds the two core source files:
  * `backend/ml_inference_bridge.py` — ensemble scoring and the
    line-oriented pipe-mode serving loop;
  * `models/dynamic_proof.py` — deterministic text embedding,
    digest-derived transient file naming, and the staged proof
    orchestration with cleanup.

Python floats are modelled as rationals (ℚ); the single transcendental
slot (`np.tanh`) is modelled as `Real.tanh` on the coerced rational.
The external numpy RNG and the external `ezkl` engine are modelled as
explicit parameters (a seeded-generator interface and an outcome
environment), exactly mirroring how the source calls them.
-/

namespace Mosaic

/-! ### `backend/ml_inference_bridge.py` -/

/-- Severity tiers returned by `classify_severity`. -/
inductive Severity where
  | SAFE
  | LOW
  | HIGH
  | CRITICAL
deriving DecidableEq

/-- Embeds `classify_severity(probability)`: the descending threshold
ladder 0.50 / 0.15 / 0.007 with its fixed per-tier message. -/
def classify_severity (probability : ℚ) : Severity × String :=
  if probability ≥ 1/2 then
    (Severity.CRITICAL, "High confidence exploit detected. Immediate review required.")
  else if probability ≥ 3/20 then
    (Severity.HIGH, "Suspicious patterns found. Manual review recommended.")
  else if probability ≥ 7/1000 then
    (Severity.LOW, "Minor risk or code complexity warning.")
  else
    (Severity.SAFE, "No significant issues detected.")

/-- The prediction record assembled by `predict`. -/
structure PredictionResult where
  probability : ℚ
  recall_score : ℚ
  precision_score : ℚ
  is_vulnerable : Bool
  severity : Severity
  severity_message : String
  threshold : ℚ
deriving DecidableEq

/-- Embeds `predict(models, features)`.  The two pickled models are
opaque loaded artifacts; each is modelled as a function from the
feature vector to its positive-class probability
(`predict_proba(X)[0][1]`). -/
def predict (recall_model precision_model : List ℚ → ℚ)
    (features : List ℚ) : PredictionResult :=
  let recall_proba := recall_model features
  let precision_proba := precision_model features
  let probability := 7/10 * recall_proba + 3/10 * precision_proba
  let sm := classify_severity probability
  { probability := probability
    recall_score := recall_proba
    precision_score := precision_proba
    is_vulnerable := decide (probability ≥ 7/1000)
    severity := sm.1
    severity_message := sm.2
    threshold := 7/1000 }

/-- One stripped stdin line of the pipe-mode loop, as the source
dispatches on it: empty after `strip()`; `json.loads` failure; or a
parsed JSON object whose optional `features` key holds a list
(`data.get` with default `[]`). -/
inductive ParsedLine where
  | blank
  | invalidJson (msg : String)
  | obj (features : Option (List ℚ))

/-- One line written to stdout by the loop body. -/
inductive Response where
  | ok (r : PredictionResult)
  | error (msg : String)
deriving DecidableEq

/-- Embeds the body of `main`'s `for line in sys.stdin` loop: blank
lines are skipped, malformed JSON and wrong feature counts produce an
error record, and an unexpected exception raised while scoring
(modelled by the `score` argument returning `Except.error`) produces
an error record; in every case the loop continues with the rest of
the input. -/
def serveLoop (score : List ℚ → Except String PredictionResult) :
    List ParsedLine → List Response
  | [] => []
  | l :: rest =>
    match l with
    | ParsedLine.blank => serveLoop score rest
    | ParsedLine.invalidJson m =>
        Response.error ("Invalid JSON: " ++ m) :: serveLoop score rest
    | ParsedLine.obj feats =>
        let features := feats.getD []
        if features.length ≠ 68 then
          Response.error ("Expected 68 features, got " ++ toString features.length)
            :: serveLoop score rest
        else
          match score features with
          | Except.ok r => Response.ok r :: serveLoop score rest
          | Except.error e => Response.error e :: serveLoop score rest

/-! ### SHA-256

`dynamic_proof.py` computes `output_hash =
hashlib.sha256(output_text.encode()).hexdigest()`.  The hash is
implemented here (FIPS 180-4) over `Nat` with explicit reduction
mod 2^32, together with UTF-8 encoding of the text, so that digest
claims can be settled on actual texts. -/

def M32 : Nat := 4294967296

def rotr32 (n x : Nat) : Nat := ((x >>> n) ||| (x <<< (32 - n))) % M32

def shaCh (x y z : Nat) : Nat := (x &&& y) ^^^ ((x ^^^ 4294967295) &&& z)

def shaMaj (x y z : Nat) : Nat := (x &&& y) ^^^ (x &&& z) ^^^ (y &&& z)

def bigSigma0 (x : Nat) : Nat := rotr32 2 x ^^^ rotr32 13 x ^^^ rotr32 22 x

def bigSigma1 (x : Nat) : Nat := rotr32 6 x ^^^ rotr32 11 x ^^^ rotr32 25 x

def smallSigma0 (x : Nat) : Nat := rotr32 7 x ^^^ rotr32 18 x ^^^ (x >>> 3)

def smallSigma1 (x : Nat) : Nat := rotr32 17 x ^^^ rotr32 19 x ^^^ (x >>> 10)

def shaK : List Nat :=
  [1116352408, 1899447441, 3049323471, 3921009573, 961987163,
   1508970993, 2453635748, 2870763221, 3624381080, 310598401,
   607225278, 1426881987, 1925078388, 2162078206, 2614888103,
   3248222580, 3835390401, 4022224774, 264347078, 604807628,
   770255983, 1249150122, 1555081692, 1996064986, 2554220882,
   2821834349, 2952996808, 3210313671, 3336571891, 3584528711,
   113926993, 338241895, 666307205, 773529912, 1294757372,
   1396182291, 1695183700, 1986661051, 2177026350, 2456956037,
   2730485921, 2820302411, 3259730800, 3345764771, 3516065817,
   3600352804, 4094571909, 275423344, 430227734, 506948616,
   659060556, 883997877, 958139571, 1322822218, 1537002063,
   1747873779, 1955562222, 2024104815, 2227730452, 2361852424,
   2428436474, 2756734187, 3204031479, 3329325298]

def shaH0 : List Nat :=
  [1779033703, 3144134277, 1013904242, 2773480762,
   1359893119, 2600822924, 528734635, 1541459225]

/-- The `len` bytes of `n`, big-endian. -/
def toBytesBE (len n : Nat) : List Nat :=
  (List.range len).map (fun i => (n >>> (8 * (len - 1 - i))) % 256)

/-- Merkle–Damgård padding: append `0x80`, zeros, and the 64-bit
big-endian bit length, to a multiple of 64 bytes. -/
def shaPad (msg : List Nat) : List Nat :=
  let L := msg.length
  let k := (64 - ((L + 9) % 64)) % 64
  msg ++ [128] ++ List.replicate k 0 ++ toBytesBE 8 (8 * L)

/-- The 16 big-endian 32-bit words of one 64-byte block. -/
def wordsOfBlock (block : List Nat) : List Nat :=
  (List.range 16).map (fun i =>
    block.getD (4 * i) 0 * 16777216 + block.getD (4 * i + 1) 0 * 65536 +
    block.getD (4 * i + 2) 0 * 256 + block.getD (4 * i + 3) 0)

/-- Extend the 16 block words to the 64-word message schedule. -/
def shaSchedule (w16 : List Nat) : List Nat :=
  (List.range 48).foldl (fun w _ =>
    let i := w.length
    w ++ [(smallSigma1 (w.getD (i - 2) 0) + w.getD (i - 7) 0 +
           smallSigma0 (w.getD (i - 15) 0) + w.getD (i - 16) 0) % M32]) w16

/-- The eight 32-bit working variables of the compression loop. -/
structure SHAState where
  a : Nat
  b : Nat
  c : Nat
  d : Nat
  e : Nat
  f : Nat
  g : Nat
  h : Nat

/-- One round of the SHA-256 compression function. -/
def shaRound (w k : Nat) (s : SHAState) : SHAState :=
  let t1 := (s.h + bigSigma1 s.e + shaCh s.e s.f s.g + k + w) % M32
  let t2 := (bigSigma0 s.a + shaMaj s.a s.b s.c) % M32
  { a := (t1 + t2) % M32
    b := s.a
    c := s.b
    d := s.c
    e := (s.d + t1) % M32
    f := s.e
    g := s.f
    h := s.g }

/-- Process one 64-byte block starting from hash state `hs`. -/
def shaBlockStep (hs block : List Nat) : List Nat :=
  let w := shaSchedule (wordsOfBlock block)
  let s0 : SHAState :=
    ⟨hs.getD 0 0, hs.getD 1 0, hs.getD 2 0, hs.getD 3 0,
     hs.getD 4 0, hs.getD 5 0, hs.getD 6 0, hs.getD 7 0⟩
  let s := (List.range 64).foldl
    (fun s i => shaRound (w.getD i 0) (shaK.getD i 0) s) s0
  [(hs.getD 0 0 + s.a) % M32, (hs.getD 1 0 + s.b) % M32,
   (hs.getD 2 0 + s.c) % M32, (hs.getD 3 0 + s.d) % M32,
   (hs.getD 4 0 + s.e) % M32, (hs.getD 5 0 + s.f) % M32,
   (hs.getD 6 0 + s.g) % M32, (hs.getD 7 0 + s.h) % M32]

/-- Split into 64-byte chunks (fuel-driven so it reduces in the
kernel; `fuel ≥ l.length` always suffices). -/
def chunks64Go : Nat → List Nat → List (List Nat)
  | 0, _ => []
  | _, [] => []
  | n + 1, l => l.take 64 :: chunks64Go n (l.drop 64)

/-- The eight 32-bit words of the SHA-256 digest of a byte string. -/
def sha256words (msg : List Nat) : List Nat :=
  let padded := shaPad msg
  (chunks64Go padded.length padded).foldl shaBlockStep shaH0

/-- UTF-8 encoding of one character (mirrors Python `str.encode()`). -/
def utf8Bytes (c : Char) : List Nat :=
  let n := c.toNat
  if n < 128 then [n]
  else if n < 2048 then [192 ||| (n >>> 6), 128 ||| (n &&& 63)]
  else if n < 65536 then
    [224 ||| (n >>> 12), 128 ||| ((n >>> 6) &&& 63), 128 ||| (n &&& 63)]
  else
    [240 ||| (n >>> 18), 128 ||| ((n >>> 12) &&& 63),
     128 ||| ((n >>> 6) &&& 63), 128 ||| (n &&& 63)]

/-- UTF-8 bytes of a string. -/
def strBytes (s : String) : List Nat := (s.data.map utf8Bytes).flatten

/-- Lowercase hex digit. -/
def hexChar (n : Nat) : Char :=
  if n < 10 then Char.ofNat (48 + n) else Char.ofNat (87 + n)

/-- Eight lowercase hex digits of a 32-bit word. -/
def wordHex (w : Nat) : List Char :=
  [hexChar ((w >>> 28) % 16), hexChar ((w >>> 24) % 16),
   hexChar ((w >>> 20) % 16), hexChar ((w >>> 16) % 16),
   hexChar ((w >>> 12) % 16), hexChar ((w >>> 8) % 16),
   hexChar ((w >>> 4) % 16), hexChar (w % 16)]

/-- Embeds `hashlib.sha256(s.encode()).hexdigest()`. -/
def sha256hex (s : String) : String :=
  String.mk ((sha256words (strBytes s)).map wordHex).flatten

/-! ### `models/dynamic_proof.py` -/

/-- Value of one hex digit (digests from `hexdigest` are lowercase
hex, so only `0-9a-f` occur on the paths exercised here). -/
def hexVal (c : Char) : Nat :=
  if c.toNat ≥ 97 then c.toNat - 87
  else if c.toNat ≥ 65 then c.toNat - 55
  else c.toNat - 48

/-- Embeds `bytes.fromhex`: consecutive pairs of hex digits. -/
def bytesFromHex : List Char → List Nat
  | c1 :: c2 :: rest => (16 * hexVal c1 + hexVal c2) :: bytesFromHex rest
  | _ => []

/-- Embeds `int.from_bytes(bs, 'big')`. -/
def int_from_bytes_be (bs : List Nat) : Nat :=
  bs.foldl (fun acc b => 256 * acc + b) 0

/-- Interface of the numpy global RNG as `output_to_embeddings` uses
it: `np.random.seed` replaces the global state (discarding whatever
state was there) and `np.random.randn(16)` draws a 16-value vector,
advancing the state.  `σ` is the generator state type. -/
structure NumpyRNG (σ : Type) where
  seed : Nat → σ
  randn16 : σ → List ℝ × σ
  randn16_len : ∀ s, (randn16 s).1.length = 16

/-- The fixed bullish word list of `output_to_embeddings`. -/
def bullish_words : List String :=
  ["growth", "increase", "profit", "bullish", "rise", "gain", "positive"]

/-- The fixed bearish word list of `output_to_embeddings`. -/
def bearish_words : List String :=
  ["decline", "decrease", "loss", "bearish", "fall", "drop", "negative"]

/-- Embeds the Python substring test `word in text`. -/
def strContains (text word : String) : Bool :=
  text.data.tails.any (fun t => word.data.isPrefixOf t)

/-- Embeds `str.lower()` (character-wise lowercasing; the word lists
and all texts exercised here are ASCII, where the two agree). -/
def lowerStr (s : String) : String := String.mk (s.data.map Char.toLower)

/-- Number of (possibly overlapping) occurrences of `word` in `text`
— one per start position. -/
def occCount (text word : String) : Nat :=
  (text.data.tails.filter (fun t => word.data.isPrefixOf t)).length

/-- The sentiment accumulation of `output_to_embeddings`: starting
from `0.0`, add `0.3` for each bullish list word contained in the
lowercased text, then subtract `0.3` for each bearish list word
contained in it. -/
def sentimentOf (text_lower : String) : ℚ :=
  let s := bullish_words.foldl
    (fun acc word => if strContains text_lower word then acc + 3/10 else acc) 0
  bearish_words.foldl
    (fun acc word => if strContains text_lower word then acc - 3/10 else acc) s

/-- Embeds `output_to_embeddings(output_text, output_hash)` together
with the numpy global RNG state `s` it consumes: seed from the first
4 bytes of the digest read big-endian, draw the 16-value base vector,
then overwrite slot 14 with `np.tanh(sentiment)` and slot 15 with the
sign of the sentiment. -/
noncomputable def output_to_embeddings {σ : Type} (np : NumpyRNG σ)
    (output_text output_hash : String) (s : σ) : List ℝ × σ :=
  let hash_bytes := bytesFromHex output_hash.data
  let seed := int_from_bytes_be (hash_bytes.take 4)
  let s1 := np.seed seed
  let drawn := np.randn16 s1
  let embeddings := drawn.1
  let text_lower := lowerStr output_text
  let sentiment := sentimentOf text_lower
  let e14 : ℝ := Real.tanh (sentiment : ℝ)
  let e15 : ℝ := if 0 < sentiment then 1 else if sentiment < 0 then -1 else 0
  ((embeddings.set 14 e14).set 15 e15, drawn.2)

/-- The three per-request transient file paths. -/
structure TempPaths where
  input : String
  witness : String
  proof : String
deriving DecidableEq

/-- Embeds `get_temp_paths(output_hash)`: filenames keyed by the
first 8 characters of the digest, joined onto the process-constant
`SCRIPT_DIR` (here the parameter `dir`). -/
def get_temp_paths (dir output_hash : String) : TempPaths :=
  let short_hash := output_hash.take 8
  { input := dir ++ "/input_" ++ short_hash ++ ".json"
    witness := dir ++ "/witness_" ++ short_hash ++ ".json"
    proof := dir ++ "/proof_" ++ short_hash ++ ".json" }

/-- Outcomes of the external calls made by `generate_fresh_proof`:
whether `ezkl.gen_witness` and `ezkl.prove` succeed (with `str(e)`
when they raise), the boolean `ezkl.verify` result, the loaded proof
payload with its metadata, and the outcome of each successive
`os.remove` call (indexed by the order in which removes are
attempted during the request), with `str(e)` for a failed remove. -/
structure ProverEnv where
  script_dir : String
  gen_witness_ok : Bool
  witness_err : String
  prove_ok : Bool
  prove_err : String
  verify_res : Bool
  proof_data : String
  proof_size : Nat
  elapsed_ms : Nat
  instance_count : Nat
  remove_ok : Nat → Bool
  remove_err : String

/-- On-disk state: the existing file paths, plus a counter of the
`os.remove` calls attempted so far in this request. -/
structure PState where
  fs : List String
  rmCount : Nat
deriving DecidableEq

/-- Remove every occurrence of path `p` (a file system is a set; the
list may carry an arbitrary pre-existing `fs0`). -/
def removePath (fs : List String) (p : String) : List String :=
  fs.filter (fun q => q != p)

/-- Embeds the cleanup loop
`for path in paths.values(): if os.path.exists(path): os.remove(path)`.
`Except.error` carries the state at which an `os.remove` call raised;
`Except.ok` means the loop ran to completion. -/
def cleanupLoop (env : ProverEnv) : List String → PState → Except PState PState
  | [], st => Except.ok st
  | p :: rest, st =>
    if p ∈ st.fs then
      if env.remove_ok st.rmCount then
        cleanupLoop env rest ⟨removePath st.fs p, st.rmCount + 1⟩
      else
        Except.error ⟨st.fs, st.rmCount + 1⟩
    else cleanupLoop env rest st

/-- The dict returned by `generate_fresh_proof`: the
`success: true` shape with payload and metadata, or the
`success: false` shape with the error message. -/
inductive ProofResult where
  | ok (proof_data outputHash : String)
      (proofSizeBytes generationTimeMs instanceCount : Nat) (verified : Bool)
  | err (error outputHash : String)
deriving DecidableEq

/-- The `success` field of the returned dict. -/
def ProofResult.success : ProofResult → Bool
  | ProofResult.ok .. => true
  | ProofResult.err .. => false

/-- The `verified` field of the success dict. -/
def ProofResult.verifiedFlag : ProofResult → Option Bool
  | ProofResult.ok _ _ _ _ _ v => some v
  | ProofResult.err .. => none

/-- The `except Exception` handler of `generate_fresh_proof`: run the
cleanup loop again and return the failure dict; an `os.remove`
failure inside the handler escapes the function (first component
`none`). -/
def exceptHandler (env : ProverEnv) (paths : TempPaths)
    (output_hash msg : String) (st : PState) : Option ProofResult × PState :=
  match cleanupLoop env [paths.input, paths.witness, paths.proof] st with
  | Except.ok st2 => (some (ProofResult.err msg output_hash), st2)
  | Except.error st2 => (none, st2)

/-- Embeds `generate_fresh_proof(output_text)` acting on file-system
state `fs0`: hash the text, write the input file, generate the
witness (creating the witness file on success), generate the proof
(creating the proof file on success), verify locally, run the
cleanup loop, and assemble the result dict; a raised stage error
transfers to `exceptHandler`, as does an `os.remove` failure in the
success-path cleanup.  `none` in the first component means the call
itself raised (possible only from a cleanup failure inside the
handler). -/
def generate_fresh_proof (env : ProverEnv) (output_text : String)
    (fs0 : List String) : Option ProofResult × PState :=
  let output_hash := sha256hex output_text
  let paths := get_temp_paths env.script_dir output_hash
  let fs1 := List.insert paths.input fs0
  if env.gen_witness_ok = false then
    exceptHandler env paths output_hash env.witness_err ⟨fs1, 0⟩
  else
    let fs2 := List.insert paths.witness fs1
    if env.prove_ok = false then
      exceptHandler env paths output_hash env.prove_err ⟨fs2, 0⟩
    else
      let fs3 := List.insert paths.proof fs2
      let verify_res := env.verify_res
      match cleanupLoop env [paths.input, paths.witness, paths.proof] ⟨fs3, 0⟩ with
      | Except.ok st =>
          (some (ProofResult.ok env.proof_data output_hash env.proof_size
            env.elapsed_ms env.instance_count verify_res), st)
      | Except.error st => exceptHandler env paths output_hash env.remove_err st

/-- Number of bullish list words contained in the (lowercased)
text: each list word counts at most once however often it occurs. -/
def bullishHits (text_lower : String) : Nat :=
  (bullish_words.filter (fun w => strContains text_lower w)).length

/-- Number of bearish list words contained in the (lowercased)
text. -/
def bearishHits (text_lower : String) : Nat :=
  (bearish_words.filter (fun w => strContains text_lower w)).length

/-- A concrete environment in which every external call succeeds. -/
def envW : ProverEnv :=
  ⟨"d", true, "we", true, "pe", true, "pd", 10, 5, 3, fun _ => true, "re"⟩

/-- A concrete environment in which everything succeeds but local
verification returns a negative result. -/
def envW4 : ProverEnv :=
  ⟨"d", true, "we", true, "pe", false, "pd", 10, 5, 3, fun _ => true, "re"⟩

/-- A concrete environment in which every proving stage succeeds and
verification is positive, but the first `os.remove` call raises
(later ones succeed). -/
def envC8 : ProverEnv :=
  ⟨"d", true, "we", true, "pe", true, "pd", 10, 5, 3, fun n => n != 0, "re"⟩

/-- A concrete environment whose witness stage raises and whose
`os.remove` calls all fail. -/
def envC8b : ProverEnv :=
  ⟨"d", false, "we", true, "pe", true, "pd", 10, 5, 3, fun _ => false, "re"⟩

/-- A concrete trivial RNG model (state type `Unit`, all-zero base
vector), used to instantiate embedding claims. -/
noncomputable def rngC6 : NumpyRNG Unit :=
  ⟨fun _ => (), fun _ => (List.replicate 16 0, ()), fun _ => by simp⟩

/-! ### Claims about the scoring bridge -/

/-- Claim C1: for every ensemble probability `p`, `classify_severity`
is boundary-exact and totally ordered — CRITICAL iff `p ≥ 0.50`, HIGH
iff `0.15 ≤ p < 0.50`, LOW iff `0.007 ≤ p < 0.15`, SAFE iff
`p < 0.007` — and the `is_vulnerable` field assembled by `predict` is
true iff its probability is `≥ 0.007`, independent of the higher tier
boundaries. -/
theorem C1_severity_boundaries (p : ℚ) (rm pm : List ℚ → ℚ) (features : List ℚ) :
    ((classify_severity p).1 = Severity.CRITICAL ↔ 1/2 ≤ p) ∧
    ((classify_severity p).1 = Severity.HIGH ↔ 3/20 ≤ p ∧ p < 1/2) ∧
    ((classify_severity p).1 = Severity.LOW ↔ 7/1000 ≤ p ∧ p < 3/20) ∧
    ((classify_severity p).1 = Severity.SAFE ↔ p < 7/1000) ∧
    ((predict rm pm features).is_vulnerable = true ↔
      7/1000 ≤ (predict rm pm features).probability) := by
  have hpred : (predict rm pm features).is_vulnerable = true ↔
      7/1000 ≤ (predict rm pm features).probability := by
    simp [predict, ge_iff_le]
  refine ⟨?_, ?_, ?_, ?_, hpred⟩ <;>
    · unfold classify_severity
      split_ifs with h1 h2 h3 <;> simp_all <;>
        first
          | linarith
          | (constructor <;> linarith)
          | (intros; linarith)
          | (constructor <;> intros <;> linarith)

/-- Claim C2: for every feature vector of length 68, the probability
assembled by `predict` equals `0.7 * r + 0.3 * p` exactly (`r`, `p`
the two model probabilities), and lies in `[0, 1]` whenever both
model probabilities do. -/
theorem C2_ensemble_probability (rm pm : List ℚ → ℚ) (features : List ℚ)
    (hlen : features.length = 68)
    (hr0 : 0 ≤ rm features) (hr1 : rm features ≤ 1)
    (hp0 : 0 ≤ pm features) (hp1 : pm features ≤ 1) :
    (predict rm pm features).probability =
      7/10 * rm features + 3/10 * pm features ∧
    0 ≤ (predict rm pm features).probability ∧
    (predict rm pm features).probability ≤ 1 := by
  have h : (predict rm pm features).probability =
      7/10 * rm features + 3/10 * pm features := rfl
  refine ⟨h, ?_, ?_⟩ <;> rw [h] <;> linarith

/-- Witness for C2 at the all-zero feature vector with model
probabilities 1/2 and 1/4. -/
theorem C2_ensemble_probability_witness :
    (List.replicate 68 (0:ℚ)).length = 68 ∧
    (0:ℚ) ≤ 1/2 ∧ ((1:ℚ)/2 ≤ 1) ∧ ((0:ℚ) ≤ 1/4) ∧ ((1:ℚ)/4 ≤ 1) ∧
    ((predict (fun _ => (1:ℚ)/2) (fun _ => (1:ℚ)/4)
        (List.replicate 68 0)).probability = 7/10 * (1/2) + 3/10 * (1/4) ∧
      0 ≤ (predict (fun _ => (1:ℚ)/2) (fun _ => (1:ℚ)/4)
        (List.replicate 68 0)).probability ∧
      (predict (fun _ => (1:ℚ)/2) (fun _ => (1:ℚ)/4)
        (List.replicate 68 0)).probability ≤ 1) := by
  refine ⟨by simp, by norm_num, by norm_num, by norm_num, by norm_num, ?_⟩
  exact C2_ensemble_probability (fun _ => 1/2) (fun _ => 1/4) (List.replicate 68 0)
    (by simp) (by norm_num) (by norm_num) (by norm_num) (by norm_num)

/-- Claim C9: in pipe mode, a line that is malformed JSON, or whose
feature list does not have exactly 68 elements, or whose scoring
raises an unexpected exception, produces exactly one structured error
response and the loop continues with the remaining lines. -/
theorem C9_bad_line_one_error_and_continue
    (score : List ℚ → Except String PredictionResult)
    (l : ParsedLine) (rest : List ParsedLine)
    (hbad : (∃ m, l = ParsedLine.invalidJson m) ∨
      (∃ feats, l = ParsedLine.obj feats ∧ (feats.getD []).length ≠ 68) ∨
      (∃ feats e, l = ParsedLine.obj feats ∧ (feats.getD []).length = 68 ∧
        score (feats.getD []) = Except.error e)) :
    ∃ msg, serveLoop score (l :: rest) =
      Response.error msg :: serveLoop score rest := by
  rcases hbad with ⟨m, rfl⟩ | ⟨feats, rfl, hlen⟩ | ⟨feats, e, rfl, hlen, hs⟩
  · exact ⟨_, rfl⟩
  · exact ⟨"Expected 68 features, got " ++ toString (feats.getD []).length,
      by simp [serveLoop, hlen]⟩
  · exact ⟨e, by simp [serveLoop, hlen, hs]⟩

/-- Witness for C9 on a malformed-JSON line followed by an empty
tail. -/
theorem C9_witness :
    ((∃ m, ParsedLine.invalidJson "bad" = ParsedLine.invalidJson m) ∨
      (∃ feats, ParsedLine.invalidJson "bad" = ParsedLine.obj feats ∧
        (feats.getD []).length ≠ 68) ∨
      (∃ feats e, ParsedLine.invalidJson "bad" = ParsedLine.obj feats ∧
        (feats.getD []).length = 68 ∧
        (fun _ => (Except.error "boom" : Except String PredictionResult))
          (feats.getD []) = Except.error e)) ∧
    ∃ msg, serveLoop (fun _ => Except.error "boom")
        (ParsedLine.invalidJson "bad" :: []) =
      Response.error msg :: serveLoop (fun _ => Except.error "boom") [] :=
  ⟨Or.inl ⟨"bad", rfl⟩,
    C9_bad_line_one_error_and_continue (fun _ => Except.error "boom")
      (ParsedLine.invalidJson "bad") [] (Or.inl ⟨"bad", rfl⟩)⟩

/-- Claim C10: a parsed JSON object with no `features` key is scored
as an empty feature list, producing the structured error
`Expected 68 features, got 0` and continuing, and a blank line is
silently skipped with no response. -/
theorem C10_missing_key_and_blank_line
    (score : List ℚ → Except String PredictionResult) (rest : List ParsedLine) :
    serveLoop score (ParsedLine.obj none :: rest) =
      Response.error "Expected 68 features, got 0" :: serveLoop score rest ∧
    serveLoop score (ParsedLine.blank :: rest) = serveLoop score rest :=
  ⟨rfl, rfl⟩

/-! ### Claims about the proof pipeline -/

/-- The cleanup loop only ever removes files. -/
lemma cleanupLoop_subset (env : ProverEnv) :
    ∀ (ps : List String) (st st2 : PState),
      cleanupLoop env ps st = Except.ok st2 → st2.fs ⊆ st.fs := by
  intro ps
  induction ps with
  | nil =>
    intro st st2 h
    injection h with h
    exact h ▸ fun a ha => ha
  | cons p rest ih =>
    intro st st2 h
    simp only [cleanupLoop] at h
    by_cases hp : p ∈ st.fs
    · rw [if_pos hp] at h
      by_cases hr : env.remove_ok st.rmCount = true
      · rw [if_pos hr] at h
        intro a ha
        have hmem := ih _ _ h ha
        simp only [removePath, List.mem_filter] at hmem
        exact hmem.1
      · rw [if_neg hr] at h
        cases h
    · rw [if_neg hp] at h
      exact ih _ _ h

/-- After a completed cleanup pass, none of the processed paths
remain. -/
lemma cleanupLoop_removes (env : ProverEnv) :
    ∀ (ps : List String) (st st2 : PState),
      cleanupLoop env ps st = Except.ok st2 → ∀ p ∈ ps, p ∉ st2.fs := by
  intro ps
  induction ps with
  | nil =>
    intro st st2 h p hp
    cases hp
  | cons q rest ih =>
    intro st st2 h p hp
    simp only [cleanupLoop] at h
    by_cases hq : q ∈ st.fs
    · rw [if_pos hq] at h
      by_cases hr : env.remove_ok st.rmCount = true
      · rw [if_pos hr] at h
        rcases List.mem_cons.mp hp with rfl | hp
        · intro hmem
          have := cleanupLoop_subset env _ _ _ h hmem
          simp [removePath, List.mem_filter] at this
        · exact ih _ _ h p hp
      · rw [if_neg hr] at h
        cases h
    · rw [if_neg hq] at h
      rcases List.mem_cons.mp hp with rfl | hp
      · exact fun hmem => hq (cleanupLoop_subset env _ _ _ h hmem)
      · exact ih _ _ h p hp

/-- The cleanup loop completes when every `os.remove` call from the
current attempt counter onwards succeeds. -/
lemma cleanupLoop_total (env : ProverEnv) :
    ∀ (ps : List String) (st : PState),
      (∀ n, st.rmCount ≤ n → env.remove_ok n = true) →
      ∃ st2, cleanupLoop env ps st = Except.ok st2 := by
  intro ps
  induction ps with
  | nil => exact fun st _ => ⟨st, rfl⟩
  | cons q rest ih =>
    intro st h
    simp only [cleanupLoop]
    by_cases hq : q ∈ st.fs
    · rw [if_pos hq, if_pos (h st.rmCount le_rfl)]
      exact ih _ (fun n hn => h n (by simp at hn ⊢; omega))
    · rw [if_neg hq]
      exact ih _ h

/-- A cleanup loop whose removes all succeed never raises. -/
lemma cleanupLoop_ne_error (env : ProverEnv)
    (hrm : ∀ n, env.remove_ok n = true) (ps : List String) (st st2 : PState)
    (h : cleanupLoop env ps st = Except.error st2) : False := by
  obtain ⟨st3, hok⟩ := cleanupLoop_total env ps st (fun n _ => hrm n)
  rw [h] at hok
  cases hok

/-- When the exception handler returns a result dict, all three
transient paths are gone from the final file-system state. -/
lemma exceptHandler_some (env : ProverEnv) (paths : TempPaths)
    (hash msg : String) (st : PState) (r : ProofResult) (st2 : PState)
    (h : exceptHandler env paths hash msg st = (some r, st2)) :
    paths.input ∉ st2.fs ∧ paths.witness ∉ st2.fs ∧ paths.proof ∉ st2.fs := by
  unfold exceptHandler at h
  rcases hcl : cleanupLoop env [paths.input, paths.witness, paths.proof] st
    with st3 | st3 <;> rw [hcl] at h
  · injection h with h1 h2
    cases h1
  · injection h with h1 h2
    subst h2
    have hrm := cleanupLoop_removes env _ _ _ hcl
    exact ⟨hrm _ (by simp), hrm _ (by simp), hrm _ (by simp)⟩

/-- Claim C3: whenever `generate_fresh_proof` returns a result — the
success dict or the failure dict of any stage — none of the three
transient files named by the request's digest prefix remain on
disk. -/
theorem C3_transients_cleaned_on_return (env : ProverEnv)
    (output_text : String) (fs0 : List String) (r : ProofResult) (st : PState)
    (h : generate_fresh_proof env output_text fs0 = (some r, st)) :
    (get_temp_paths env.script_dir (sha256hex output_text)).input ∉ st.fs ∧
    (get_temp_paths env.script_dir (sha256hex output_text)).witness ∉ st.fs ∧
    (get_temp_paths env.script_dir (sha256hex output_text)).proof ∉ st.fs := by
  simp only [generate_fresh_proof] at h
  split at h
  · exact exceptHandler_some _ _ _ _ _ _ _ h
  · split at h
    · exact exceptHandler_some _ _ _ _ _ _ _ h
    · split at h
      next st3 heq =>
        injection h with h1 h2
        subst h2
        have hrm := cleanupLoop_removes env _ _ _ heq
        exact ⟨hrm _ (by simp), hrm _ (by simp), hrm _ (by simp)⟩
      next st3 heq =>
        exact exceptHandler_some _ _ _ _ _ _ _ h

set_option maxRecDepth 40000 in
/-- Witness for C3: a fully successful request over an empty initial
file system, whose final state holds no files at all. -/
theorem C3_transients_cleaned_on_return_witness :
    generate_fresh_proof envW "x" [] =
      (some (ProofResult.ok "pd" (sha256hex "x") 10 5 3 true),
        (⟨[], 3⟩ : PState)) ∧
    ((get_temp_paths "d" (sha256hex "x")).input ∉ (⟨[], 3⟩ : PState).fs ∧
      (get_temp_paths "d" (sha256hex "x")).witness ∉ (⟨[], 3⟩ : PState).fs ∧
      (get_temp_paths "d" (sha256hex "x")).proof ∉ (⟨[], 3⟩ : PState).fs) := by
  have h : generate_fresh_proof envW "x" [] =
      (some (ProofResult.ok "pd" (sha256hex "x") 10 5 3 true),
        (⟨[], 3⟩ : PState)) := by decide
  exact ⟨h, C3_transients_cleaned_on_return envW "x" [] _ _ h⟩

/-- Claim C4: when witness and proof generation succeed but local
verification is negative, the result is still the success dict,
carrying the proof payload and metadata, with the negative outcome
reported only through `verified = false`. -/
theorem C4_negative_verification_still_success (env : ProverEnv)
    (output_text : String) (fs0 : List String)
    (hw : env.gen_witness_ok = true) (hp : env.prove_ok = true)
    (hv : env.verify_res = false) (hrm : ∀ n, env.remove_ok n = true) :
    (generate_fresh_proof env output_text fs0).1 =
      some (ProofResult.ok env.proof_data (sha256hex output_text)
        env.proof_size env.elapsed_ms env.instance_count false) := by
  simp only [generate_fresh_proof]
  rw [if_neg (by simp [hw]), if_neg (by simp [hp])]
  split
  next st2 heq => simp [hv]
  next st2 heq => exact (cleanupLoop_ne_error env hrm _ _ _ heq).elim

/-- Appending the same suffix after the same prefix is injective: two
paths of the same kind agree only if their hash slices agree. -/
lemma path_ne_of_slice_ne (d pre a b : String) (hne : a ≠ b) :
    d ++ pre ++ a ++ ".json" ≠ d ++ pre ++ b ++ ".json" := by
  intro h
  apply hne
  have hd := congrArg String.data h
  simp only [String.data_append, List.append_assoc] at hd
  have h2 := List.append_cancel_left hd
  have h3 := List.append_cancel_left h2
  have h4 := List.append_cancel_right h3
  exact congrArg String.mk h4

/-- An `input_` path never equals a `witness_` path. -/
lemma input_ne_witness (d a b : String) :
    d ++ "/input_" ++ a ++ ".json" ≠ d ++ "/witness_" ++ b ++ ".json" := by
  intro h
  have hd := congrArg String.data h
  simp only [String.data_append, List.append_assoc] at hd
  have h2 := List.append_cancel_left hd
  simp at h2

/-- An `input_` path never equals a `proof_` path. -/
lemma input_ne_proof (d a b : String) :
    d ++ "/input_" ++ a ++ ".json" ≠ d ++ "/proof_" ++ b ++ ".json" := by
  intro h
  have hd := congrArg String.data h
  simp only [String.data_append, List.append_assoc] at hd
  have h2 := List.append_cancel_left hd
  simp at h2

/-- A `witness_` path never equals a `proof_` path. -/
lemma witness_ne_proof (d a b : String) :
    d ++ "/witness_" ++ a ++ ".json" ≠ d ++ "/proof_" ++ b ++ ".json" := by
  intro h
  have hd := congrArg String.data h
  simp only [String.data_append, List.append_assoc] at hd
  have h2 := List.append_cancel_left hd
  simp at h2

set_option maxRecDepth 40000 in
/-- Counterexample to claim C7 as stated: the texts `req-7909` and
`req-35780` have different SHA-256 digests that share their first 8
hex characters, so `get_temp_paths` hands the two requests the very
same three transient paths — they are shared, not disjoint. -/
theorem C7_counterexample :
    sha256hex "req-7909" ≠ sha256hex "req-35780" ∧
    (sha256hex "req-7909").take 8 = (sha256hex "req-35780").take 8 ∧
    get_temp_paths "d" (sha256hex "req-7909") =
      get_temp_paths "d" (sha256hex "req-35780") :=
  ⟨by decide, by decide, by decide⟩

/-- Claim C7 (amended): for every two proof requests whose digests
differ in their first 8 characters, the transient file paths produced
by `get_temp_paths` are pairwise disjoint. -/
theorem C7_distinct_prefixes_disjoint (dir h1 h2 : String)
    (hpre : h1.take 8 ≠ h2.take 8) :
    (get_temp_paths dir h1).input ≠ (get_temp_paths dir h2).input ∧
    (get_temp_paths dir h1).input ≠ (get_temp_paths dir h2).witness ∧
    (get_temp_paths dir h1).input ≠ (get_temp_paths dir h2).proof ∧
    (get_temp_paths dir h1).witness ≠ (get_temp_paths dir h2).input ∧
    (get_temp_paths dir h1).witness ≠ (get_temp_paths dir h2).witness ∧
    (get_temp_paths dir h1).witness ≠ (get_temp_paths dir h2).proof ∧
    (get_temp_paths dir h1).proof ≠ (get_temp_paths dir h2).input ∧
    (get_temp_paths dir h1).proof ≠ (get_temp_paths dir h2).witness ∧
    (get_temp_paths dir h1).proof ≠ (get_temp_paths dir h2).proof :=
  ⟨path_ne_of_slice_ne dir "/input_" _ _ hpre,
    input_ne_witness dir _ _,
    input_ne_proof dir _ _,
    fun h => input_ne_witness dir _ _ h.symm,
    path_ne_of_slice_ne dir "/witness_" _ _ hpre,
    witness_ne_proof dir _ _,
    fun h => input_ne_proof dir _ _ h.symm,
    fun h => witness_ne_proof dir _ _ h.symm,
    path_ne_of_slice_ne dir "/proof_" _ _ hpre⟩

set_option maxRecDepth 40000 in
/-- Witness for the amended C7 on the digests of `growth` and `x`,
which differ already in their first 8 characters. -/
theorem C7_distinct_prefixes_disjoint_witness :
    (sha256hex "growth").take 8 ≠ (sha256hex "x").take 8 ∧
    ((get_temp_paths "d" (sha256hex "growth")).input ≠
        (get_temp_paths "d" (sha256hex "x")).input ∧
      (get_temp_paths "d" (sha256hex "growth")).input ≠
        (get_temp_paths "d" (sha256hex "x")).witness ∧
      (get_temp_paths "d" (sha256hex "growth")).input ≠
        (get_temp_paths "d" (sha256hex "x")).proof ∧
      (get_temp_paths "d" (sha256hex "growth")).witness ≠
        (get_temp_paths "d" (sha256hex "x")).input ∧
      (get_temp_paths "d" (sha256hex "growth")).witness ≠
        (get_temp_paths "d" (sha256hex "x")).witness ∧
      (get_temp_paths "d" (sha256hex "growth")).witness ≠
        (get_temp_paths "d" (sha256hex "x")).proof ∧
      (get_temp_paths "d" (sha256hex "growth")).proof ≠
        (get_temp_paths "d" (sha256hex "x")).input ∧
      (get_temp_paths "d" (sha256hex "growth")).proof ≠
        (get_temp_paths "d" (sha256hex "x")).witness ∧
      (get_temp_paths "d" (sha256hex "growth")).proof ≠
        (get_temp_paths "d" (sha256hex "x")).proof) :=
  ⟨by decide,
    C7_distinct_prefixes_disjoint "d" (sha256hex "growth") (sha256hex "x")
      (by decide)⟩

/-- A cleanup loop that raises has attempted at least one more
remove than the counter showed on entry. -/
lemma cleanupLoop_error_count (env : ProverEnv) :
    ∀ (ps : List String) (st st2 : PState),
      cleanupLoop env ps st = Except.error st2 →
      st.rmCount + 1 ≤ st2.rmCount := by
  intro ps
  induction ps with
  | nil =>
    intro st st2 h
    cases h
  | cons q rest ih =>
    intro st st2 h
    simp only [cleanupLoop] at h
    by_cases hq : q ∈ st.fs
    · rw [if_pos hq] at h
      by_cases hr : env.remove_ok st.rmCount = true
      · rw [if_pos hr] at h
        have := ih _ _ h
        simp at this
        omega
      · rw [if_neg hr] at h
        injection h with h
        rw [← h]
    · rw [if_neg hq] at h
      exact ih _ _ h

/-- A cleanup loop whose first path exists and whose next remove
fails cannot complete. -/
lemma cleanupLoop_fail_head (env : ProverEnv) (p : String)
    (ps : List String) (st st2 : PState) (hmem : p ∈ st.fs)
    (h0 : env.remove_ok st.rmCount = false) :
    cleanupLoop env (p :: ps) st ≠ Except.ok st2 := by
  simp only [cleanupLoop]
  rw [if_pos hmem, if_neg (by simp [h0])]
  simp

/-- The exception handler returns the failure dict when every
remaining remove succeeds. -/
lemma exceptHandler_ok_of_removes (env : ProverEnv) (paths : TempPaths)
    (hash msg : String) (st : PState)
    (hall : ∀ n, st.rmCount ≤ n → env.remove_ok n = true) :
    (exceptHandler env paths hash msg st).1 = some (ProofResult.err msg hash) := by
  unfold exceptHandler
  obtain ⟨st2, hok⟩ := cleanupLoop_total env _ st hall
  rw [hok]

/-- The exception handler raises (escaping `generate_fresh_proof`)
when the input path exists and its remove fails. -/
lemma exceptHandler_none_of_fail (env : ProverEnv) (paths : TempPaths)
    (hash msg : String) (st : PState) (hmem : paths.input ∈ st.fs)
    (h0 : env.remove_ok st.rmCount = false) :
    (exceptHandler env paths hash msg st).1 = none := by
  unfold exceptHandler
  have hcl : cleanupLoop env [paths.input, paths.witness, paths.proof] st =
      Except.error ⟨st.fs, st.rmCount + 1⟩ := by
    simp only [cleanupLoop]
    rw [if_pos hmem, if_neg (by simp [h0])]
  rw [hcl]

set_option maxRecDepth 40000 in
/-- Counterexample to claim C8 as stated: in `envC8` every proving
stage succeeds and verification is positive, yet the single failing
`os.remove` call is propagated into the outer handler and the request
returns the failure dict — the deletion failure masks the original
success. -/
theorem C8_counterexample :
    envC8.gen_witness_ok = true ∧ envC8.prove_ok = true ∧
    envC8.verify_res = true ∧
    (generate_fresh_proof envC8 "x" []).1 =
      some (ProofResult.err "re" (sha256hex "x")) :=
  ⟨rfl, rfl, rfl, by decide⟩

/-- Claim C8 (amended): a failure while deleting a transient file is
not contained by `generate_fresh_proof`.  On the success path it is
caught by the surrounding exception handler, which converts the
request into a failure dict carrying the deletion error (masking the
success); on a stage-failure path a deletion failure escapes the
function altogether (masking the original stage error). -/
theorem C8_cleanup_failure_not_contained (env env2 : ProverEnv)
    (t1 t2 : String) (fsA fsB : List String)
    (hw : env.gen_witness_ok = true) (hp : env.prove_ok = true)
    (h0 : env.remove_ok 0 = false)
    (hrest : ∀ n, n ≠ 0 → env.remove_ok n = true)
    (hw2 : env2.gen_witness_ok = false) (h02 : env2.remove_ok 0 = false) :
    (generate_fresh_proof env t1 fsA).1 =
      some (ProofResult.err env.remove_err (sha256hex t1)) ∧
    (generate_fresh_proof env2 t2 fsB).1 = none := by
  constructor
  · simp only [generate_fresh_proof]
    rw [if_neg (by simp [hw]), if_neg (by simp [hp])]
    split
    next st2 heq =>
      exact (cleanupLoop_fail_head env _ _ _ _ (by simp [List.mem_insert_iff]) h0 heq).elim
    next st2 heq =>
      exact exceptHandler_ok_of_removes env _ _ _ st2
        (fun n hn => hrest n (by have := cleanupLoop_error_count env _ _ _ heq; omega))
  · simp only [generate_fresh_proof]
    rw [if_pos hw2]
    exact exceptHandler_none_of_fail env2 _ _ _ _ (by simp [List.mem_insert_iff]) h02

/-- Witness for the amended C8 in the concrete environments `envC8`
(success masked into a failure dict) and `envC8b` (stage error masked
by an escaping exception). -/
theorem C8_cleanup_failure_not_contained_witness :
    envC8.gen_witness_ok = true ∧ envC8.prove_ok = true ∧
    envC8.remove_ok 0 = false ∧ envC8b.gen_witness_ok = false ∧
    envC8b.remove_ok 0 = false ∧
    ((generate_fresh_proof envC8 "x" []).1 =
        some (ProofResult.err envC8.remove_err (sha256hex "x")) ∧
      (generate_fresh_proof envC8b "y" []).1 = none) :=
  ⟨rfl, rfl, rfl, rfl, rfl,
    C8_cleanup_failure_not_contained envC8 envC8b "x" "y" [] [] rfl rfl rfl
      (fun n hn => by simpa [envC8] using hn) rfl rfl⟩

/-- Witness for C4 in the concrete environment `envW4`. -/
theorem C4_negative_verification_still_success_witness :
    envW4.gen_witness_ok = true ∧ envW4.prove_ok = true ∧
    envW4.verify_res = false ∧ envW4.remove_ok 0 = true ∧
    (generate_fresh_proof envW4 "x" []).1 =
      some (ProofResult.ok envW4.proof_data (sha256hex "x")
        envW4.proof_size envW4.elapsed_ms envW4.instance_count false) :=
  ⟨rfl, rfl, rfl, rfl,
    C4_negative_verification_still_success envW4 "x" [] rfl rfl rfl (fun _ => rfl)⟩

/-! ### Claims about the feature embedder -/

/-- Strict monotonicity (hence injectivity) of `Real.tanh`. -/
lemma tanh_strictMono : StrictMono Real.tanh := by
  intro a b hab
  rw [Real.tanh_eq_sinh_div_cosh, Real.tanh_eq_sinh_div_cosh,
    div_lt_div_iff₀ (Real.cosh_pos a) (Real.cosh_pos b)]
  have h : Real.sinh (a - b) < 0 := Real.sinh_neg_iff.mpr (by linarith)
  rw [Real.sinh_sub] at h
  nlinarith [Real.cosh_pos a, Real.cosh_pos b]

/-- The bullish accumulation loop adds `0.3` per contained word. -/
lemma sentiment_foldl_add (t : String) (l : List String) : ∀ a : ℚ,
    l.foldl (fun acc word => if strContains t word then acc + 3/10 else acc) a =
      a + 3/10 * ((l.filter (fun w => strContains t w)).length : ℚ) := by
  induction l with
  | nil => intro a; simp
  | cons w rest ih =>
    intro a
    by_cases h : strContains t w <;>
      simp [List.foldl_cons, h, List.filter_cons, ih] <;> ring

/-- The bearish accumulation loop subtracts `0.3` per contained
word. -/
lemma sentiment_foldl_sub (t : String) (l : List String) : ∀ a : ℚ,
    l.foldl (fun acc word => if strContains t word then acc - 3/10 else acc) a =
      a - 3/10 * ((l.filter (fun w => strContains t w)).length : ℚ) := by
  induction l with
  | nil => intro a; simp
  | cons w rest ih =>
    intro a
    by_cases h : strContains t w <;>
      simp [List.foldl_cons, h, List.filter_cons, ih] <;> ring

/-- Closed form of the sentiment scalar: `0.3` times the number of
bullish list words present minus `0.3` times the number of bearish
list words present — presence, not occurrence count. -/
lemma sentimentOf_eq (t : String) :
    sentimentOf t = 3/10 * (bullishHits t : ℚ) - 3/10 * (bearishHits t : ℚ) := by
  unfold sentimentOf bullishHits bearishHits
  rw [sentiment_foldl_add, sentiment_foldl_sub]
  ring

/-- Slot 14 of the embedding is `tanh` of the sentiment scalar. -/
lemma slot14_eq {σ : Type} (np : NumpyRNG σ) (t h : String) (s : σ) :
    ((output_to_embeddings np t h s).1).getD 14 0 =
      Real.tanh ((sentimentOf (lowerStr t) : ℚ) : ℝ) := by
  have hlen := np.randn16_len (np.seed (int_from_bytes_be ((bytesFromHex h.data).take 4)))
  simp only [output_to_embeddings]
  rw [List.getD_eq_getElem?_getD, List.getElem?_set_ne (by omega),
    List.getElem?_set_self (by simp [hlen])]
  simp

/-- Slot 15 of the embedding is the sign of the sentiment scalar. -/
lemma slot15_eq {σ : Type} (np : NumpyRNG σ) (t h : String) (s : σ) :
    ((output_to_embeddings np t h s).1).getD 15 0 =
      (if 0 < sentimentOf (lowerStr t) then (1 : ℝ)
       else if sentimentOf (lowerStr t) < 0 then -1 else 0) := by
  have hlen := np.randn16_len (np.seed (int_from_bytes_be ((bytesFromHex h.data).take 4)))
  simp only [output_to_embeddings]
  rw [List.getD_eq_getElem?_getD, List.getElem?_set_self (by simp [hlen])]
  simp

/-- Claim C5: the embedder is deterministic — the returned vector has
16 slots, does not depend on the prior global RNG state (the source
re-seeds before drawing), and equals the vector drawn from the seed
given by the first 4 digest bytes read big-endian, with slots 14/15
overwritten from the sentiment. -/
theorem C5_embedder_deterministic {σ : Type} (np : NumpyRNG σ)
    (text hash : String) (s1 s2 : σ) :
    ((output_to_embeddings np text hash s1).1).length = 16 ∧
    (output_to_embeddings np text hash s1).1 =
      (output_to_embeddings np text hash s2).1 ∧
    (output_to_embeddings np text hash s1).1 =
      ((np.randn16 (np.seed (int_from_bytes_be
          ((bytesFromHex hash.data).take 4)))).1.set 14
            (Real.tanh ((sentimentOf (lowerStr text) : ℚ) : ℝ))).set 15
        (if 0 < sentimentOf (lowerStr text) then (1 : ℝ)
         else if sentimentOf (lowerStr text) < 0 then -1 else 0) := by
  refine ⟨?_, rfl, rfl⟩
  simp [output_to_embeddings, np.randn16_len]

/-- Counterexample to claim C6 as stated: `growthgrowth` adds one
more occurrence of the bullish word `growth` to the text `growth`,
yet the sentiment is unchanged (presence is counted once per list
word, not per occurrence), so the embeddings agree at indices 14
and 15. -/
theorem C6_counterexample :
    occCount "growthgrowth" "growth" = occCount "growth" "growth" + 1 ∧
    "growthgrowth" = "growth" ++ "growth" ∧
    ((output_to_embeddings rngC6 "growthgrowth"
        (sha256hex "growthgrowth") ()).1).getD 14 0 =
      ((output_to_embeddings rngC6 "growth" (sha256hex "growth") ()).1).getD 14 0 ∧
    ((output_to_embeddings rngC6 "growthgrowth"
        (sha256hex "growthgrowth") ()).1).getD 15 0 =
      ((output_to_embeddings rngC6 "growth" (sha256hex "growth") ()).1).getD 15 0 := by
  have hs1 : sentimentOf (lowerStr "growthgrowth") = 3/10 := by
    rw [sentimentOf_eq,
      show bullishHits (lowerStr "growthgrowth") = 1 from rfl,
      show bearishHits (lowerStr "growthgrowth") = 0 from rfl]
    norm_num
  have hs2 : sentimentOf (lowerStr "growth") = 3/10 := by
    rw [sentimentOf_eq,
      show bullishHits (lowerStr "growth") = 1 from rfl,
      show bearishHits (lowerStr "growth") = 0 from rfl]
    norm_num
  refine ⟨by decide, rfl, ?_, ?_⟩
  · rw [slot14_eq, slot14_eq, hs1, hs2]
  · rw [slot15_eq, slot15_eq, hs1, hs2]

/-- Claim C6 (amended): the sentiment scalar adds `0.3` per bullish
list word present and `0.3` per bearish list word present, counting
each list word once however often it occurs (so it is bounded, not
unbounded); for two texts where exactly one more bullish list word is
newly present and bearish presence is unchanged, the sentiments
differ by `0.3`, index 14 (tanh) always differs, and index 15 (sign)
differs exactly when the sign changes, i.e. iff the first text's
sentiment lies in `[-0.3, 0]`. -/
theorem C6_bullish_presence_changes_slots {σ : Type} (np : NumpyRNG σ)
    (s1 s2 : σ) (t1 t2 hash1 hash2 : String)
    (hb : bullishHits (lowerStr t2) = bullishHits (lowerStr t1) + 1)
    (hr : bearishHits (lowerStr t2) = bearishHits (lowerStr t1)) :
    sentimentOf (lowerStr t2) = sentimentOf (lowerStr t1) + 3/10 ∧
    ((output_to_embeddings np t2 hash2 s2).1).getD 14 0 ≠
      ((output_to_embeddings np t1 hash1 s1).1).getD 14 0 ∧
    (((output_to_embeddings np t2 hash2 s2).1).getD 15 0 ≠
        ((output_to_embeddings np t1 hash1 s1).1).getD 15 0 ↔
      -(3/10) ≤ sentimentOf (lowerStr t1) ∧ sentimentOf (lowerStr t1) ≤ 0) := by
  have hsent : sentimentOf (lowerStr t2) = sentimentOf (lowerStr t1) + 3/10 := by
    rw [sentimentOf_eq, sentimentOf_eq, hb, hr]
    push_cast
    ring
  refine ⟨hsent, ?_, ?_⟩
  · rw [slot14_eq, slot14_eq, hsent]
    intro hEq
    have h2 := tanh_strictMono.injective hEq
    have h3 : ((sentimentOf (lowerStr t1) : ℚ) : ℝ) + 3/10 =
        ((sentimentOf (lowerStr t1) : ℚ) : ℝ) := by
      push_cast at h2
      linarith
    linarith
  · rw [slot15_eq, slot15_eq, hsent]
    set q := sentimentOf (lowerStr t1) with hqdef
    by_cases hq1 : 0 < q
    · have ha : 0 < q + 3/10 := by linarith
      have hb2 : ¬(q ≤ 0) := by linarith
      simp [ha, hq1, hb2]
    · by_cases hq2 : q < -(3/10)
      · have h3 : ¬(0 < q + 3/10) := by linarith
        have h4 : q + 3/10 < 0 := by linarith
        have h5 : q < 0 := by linarith
        have h6 : ¬(-(3/10) ≤ q) := by linarith
        simp [h3, h4, h5, h6, hq1] <;> norm_num
      · have h5 : q ≤ 0 := le_of_not_lt hq1
        have h6 : -(3/10) ≤ q := le_of_not_lt hq2
        rcases eq_or_lt_of_le h5 with h7 | h7
        · have ha : 0 < q + 3/10 := by rw [h7]; norm_num
          have hb2 : ¬(0 < q) := by rw [h7]; norm_num
          have hc : ¬(q < 0) := by rw [h7]; norm_num
          simp [ha, hb2, hc, h5, h6] <;> norm_num
        · rcases eq_or_lt_of_le h6 with h8 | h8
          · have ha : ¬(0 < q + 3/10) := by rw [← h8]; norm_num
            have hb2 : ¬(q + 3/10 < 0) := by rw [← h8]; norm_num
            simp [ha, hb2, hq1, h7, h5, h6] <;> norm_num
          · have ha : 0 < q + 3/10 := by linarith
            simp [ha, hq1, h7, h5, h6] <;> norm_num

/-- Witness for the amended C6: the empty text against `growth`. -/
theorem C6_bullish_presence_changes_slots_witness :
    bullishHits (lowerStr "growth") = bullishHits (lowerStr "") + 1 ∧
    bearishHits (lowerStr "growth") = bearishHits (lowerStr "") ∧
    (sentimentOf (lowerStr "growth") = sentimentOf (lowerStr "") + 3/10 ∧
      ((output_to_embeddings rngC6 "growth" (sha256hex "growth") ()).1).getD 14 0 ≠
        ((output_to_embeddings rngC6 "" (sha256hex "") ()).1).getD 14 0 ∧
      (((output_to_embeddings rngC6 "growth" (sha256hex "growth") ()).1).getD 15 0 ≠
          ((output_to_embeddings rngC6 "" (sha256hex "") ()).1).getD 15 0 ↔
        -(3/10) ≤ sentimentOf (lowerStr "") ∧ sentimentOf (lowerStr "") ≤ 0)) :=
  ⟨by decide, by decide,
    C6_bullish_presence_changes_slots rngC6 () () "" "growth"
      (sha256hex "") (sha256hex "growth") (by decide) (by decide)⟩

end Mosaic
